import Mathlib

/-!
Shallow embedding of the statistics core of the chatbot-study analysis
pipeline (src/analysis/phase1..phase6), together with theorems settling the
frozen claims about it.

Conventions used throughout:
* pandas/numpy missing values (NaN) on scalar fields are modelled as `Option`
  (`none` = NaN); pandas comparisons such as `series == 0` are `false` on NaN,
  which is modelled as equality with `some 0`.
* Python floats are modelled as `ℚ` where the source computes rational
  arithmetic, and as `ℝ` where `np.sqrt` / `np.tanh` / `np.arctanh` enter.
* External library functions that are pure and deterministic but whose
  numerical definition lives outside the repository (scipy's `shapiro`,
  `norm.ppf`) are modelled as explicit function parameters.
-/

namespace ChatbotStudy

/-! ### Phase 1: sample flow (src/analysis/phase1_descriptive_statistics.py, compute_sample_flow) -/

/-- One row of the participant DataFrame, restricted to the three columns
`compute_sample_flow` reads.  `none` models a pandas NaN / missing value. -/
structure Row where
  attention_check_correct : Option ℚ
  condition : Option String
  donation_decision : Option ℚ
deriving DecidableEq, Repr

/-- The dictionary returned by `compute_sample_flow` (phase1, lines 254-310). -/
structure SampleFlow where
  initial_n : ℕ
  excluded_attention : ℕ
  excluded_missing_condition : ℕ
  excluded_missing_donation : ℕ
  final_n : ℕ
  df_filtered : List Row
deriving DecidableEq, Repr

/-- `df['attention_check_correct'] == 0`: a pandas equality comparison is
`False` on NaN, hence equality with `some 0`. -/
def failedAttention (r : Row) : Bool := r.attention_check_correct == some 0

/-- `df['condition'].isna()`. -/
def missingCondition (r : Row) : Bool := r.condition == none

/-- `df['donation_decision'].isna()`. -/
def missingDonation (r : Row) : Bool := r.donation_decision == none

/-- `compute_sample_flow` (phase1, lines 254-310): three sequential exclusion
steps, each filtering the remainder of the previous one, with per-step counts. -/
def compute_sample_flow (df : List Row) : SampleFlow :=
  let df1 := df.filter (fun r => !failedAttention r)
  let df2 := df1.filter (fun r => !missingCondition r)
  let df3 := df2.filter (fun r => !missingDonation r)
  { initial_n := df.length
    excluded_attention := df.countP failedAttention
    excluded_missing_condition := df1.countP missingCondition
    excluded_missing_donation := df2.countP missingDonation
    final_n := df3.length
    df_filtered := df3 }

/-! ### Phase 4: interaction interpretation (src/analysis/phase4_effect_analysis.py, interpret_interaction) -/

/-- `interpret_interaction` (phase4, lines 277-341), restricted to its pattern
classification.  The inputs are the four condition-level predicted
probabilities already divided by 100 (the source reads `'Predicted (%)'`
values and divides by 100).  Returns `(pattern, interaction_effect)`. -/
def interpret_interaction (p_a p_b p_c p_d : ℚ) : String × ℚ :=
  let effect_t_at_c0 := p_b - p_a
  let effect_t_at_c1 := p_d - p_c
  let interaction_effect := effect_t_at_c1 - effect_t_at_c0
  let pattern :=
    if interaction_effect > 5 then "synergistic"
    else if interaction_effect < -5 then "antagonistic"
    else "additive"
  (pattern, interaction_effect)

/-! ### Phase 6: theme coder (src/analysis/phase6_exploratory_analysis.py, code_themes, THEME_CODEBOOK) -/

/-- Python `str.lower()`, modelled on the character list. -/
def strLower (s : String) : String := ⟨s.data.map Char.toLower⟩

/-- Python `str.strip()`: drop leading and trailing whitespace. -/
def pyStrip (s : String) : String :=
  ⟨((s.data.dropWhile Char.isWhitespace).reverse.dropWhile Char.isWhitespace).reverse⟩

/-- Python substring containment `needle in haystack`, on character lists. -/
def containsSub (needle : List Char) : List Char → Bool
  | [] => needle.isEmpty
  | c :: rest => needle.isPrefixOf (c :: rest) || containsSub needle rest

/-- `THEME_CODEBOOK` (phase6, lines 44-55), in declaration order. -/
def THEME_CODEBOOK : List (String × List String) :=
  [("transparency", ["transparent", "clear", "understand", "know", "information", "explain", "disclosure"]),
   ("control", ["control", "choice", "choose", "decide", "option", "configure", "granular"]),
   ("anonymity", ["anonymous", "anonymity", "identity", "personal", "identifiable", "private"]),
   ("risk", ["risk", "danger", "unsafe", "concern", "worry", "afraid", "misuse"]),
   ("purpose", ["purpose", "research", "academic", "science", "commercial", "profit"]),
   ("storage", ["storage", "store", "server", "switzerland", "local", "location", "where"]),
   ("retention", ["delete", "retain", "keep", "time", "duration", "permanent", "temporary"]),
   ("trust", ["trust", "believe", "reliable", "credible", "honest", "trustworthy"]),
   ("civic", ["civic", "citizen", "democracy", "vote", "public", "society", "benefit"]),
   ("general_privacy", ["privacy", "data protection", "gdpr", "sensitive"])]

/-- The codebook loop of `code_themes`: for each `(theme, keywords)` entry the
inner keyword loop appends `theme` on the first matching keyword and breaks,
which is exactly "append iff some keyword matches". -/
def themesFound (textLower : String) : List (String × List String) → List String
  | [] => []
  | (theme, keywords) :: rest =>
    if keywords.any (fun kw => containsSub kw.data textLower.data)
    then theme :: themesFound textLower rest
    else themesFound textLower rest

/-- `code_themes` (phase6, lines 81-95).  `none` models a NaN (`pd.isna`)
text; an all-whitespace text yields no themes. -/
def code_themes (text : Option String) (codebook : List (String × List String)) : List String :=
  match text with
  | none => []
  | some t =>
    if pyStrip t = "" then []
    else themesFound (strLower t) codebook

/-! ### Phase 5: normality gate (src/analysis/phase5_manipulation_checks.py, check_normality, check_mc_transparency) -/

/-- `check_normality` (phase5, lines 130-150).  scipy's `stats.shapiro` is
external, deterministic code and is modelled as the oracle `shapiro`
returning `(W, p)`.  The source's `np.random.choice(data, 5000, replace=False)`
draws from NumPy's global RNG and **no seed is set anywhere in phase 5**, so
the drawn subsample is a function of the ambient RNG state: it is modelled as
the explicit oracle `draw` (the subsample the global RNG happens to produce).
`none` models the NaN returned for samples of fewer than 3 observations. -/
def check_normality (shapiro : List ℚ → ℚ × ℚ) (draw : List ℚ → ℕ → List ℚ)
    (data : List ℚ) (alpha : ℚ) : Bool × Option ℚ × Option ℚ :=
  if data.length < 3 then (false, none, none)
  else if data.length ≤ 5000 then
    (decide (alpha < (shapiro data).2), some (shapiro data).1, some (shapiro data).2)
  else
    (decide (alpha < (shapiro (draw data 5000)).2),
     some (shapiro (draw data 5000)).1, some (shapiro (draw data 5000)).2)

/-- The test-selection branch of `check_mc_transparency` (phase5, lines
184-227): `use_parametric = norm_t0 and norm_t1`, parametric = t-test,
otherwise Mann-Whitney U.  `g0`/`g1` are the two comparison groups, `1/20`
is the default `alpha = 0.05` of `check_normality`. -/
def mc_test_type (shapiro : List ℚ → ℚ × ℚ) (draw : List ℚ → ℕ → List ℚ)
    (g0 g1 : List ℚ) : String :=
  if (check_normality shapiro draw g0 (1/20)).1 && (check_normality shapiro draw g1 (1/20)).1
  then "t-test" else "Mann-Whitney U"

/-! ### Phase 5: rank-biserial correlation (src/analysis/phase5_manipulation_checks.py, rank_biserial_r) -/

/-- `np.arctanh`, modelled by its closed form `arctanh x = log((1+x)/(1-x)) / 2`. -/
noncomputable def arctanh (x : ℝ) : ℝ := Real.log ((1 + x) / (1 - x)) / 2

/-- `rank_biserial_r` (phase5, lines 88-127): `r = 2U/(n1*n2) - 1`, a fixed
interpretation band, and a Fisher-z CI (`np.tanh` modelled by `Real.tanh`;
`1.96` is the literal in the source). -/
noncomputable def rank_biserial_r (U : ℚ) (n1 n2 : ℕ) : ℚ × String × ℝ × ℝ :=
  let r : ℚ := (2 * U) / ((n1 : ℚ) * n2) - 1
  let r_clamped : ℚ := max (-(9999/10000)) (min (9999/10000) r)
  let z : ℝ := arctanh (r_clamped : ℝ)
  let se_z : ℝ := 1 / Real.sqrt ((n1 : ℝ) + n2 - 3)
  let ci_lower := Real.tanh (z - 196/100 * se_z)
  let ci_upper := Real.tanh (z + 196/100 * se_z)
  let interpretation :=
    if |r| < 1/10 then "negligible"
    else if |r| < 3/10 then "small"
    else if |r| < 1/2 then "medium"
    else "large"
  (r, interpretation, ci_lower, ci_upper)

/-! ### Phases 3 and 5: Cohen's d (src/analysis/phase3_logistic_regression.py lines 61-95;
the phase5 copy, lines 48-85, computes the identical `d` plus a Hedges-Olkin CI) -/

/-- `np.mean` of a 1-d array, over `ℚ`. -/
def mean (l : List ℚ) : ℚ := l.sum / l.length

/-- `array.var(ddof=1)`: sum of squared deviations over `n - 1`. -/
def var1 (l : List ℚ) : ℚ :=
  (l.map (fun x => (x - mean l) ^ 2)).sum / ((l.length : ℚ) - 1)

/-- The radicand of the pooled standard deviation:
`((n1 - 1) * var1 + (n2 - 1) * var2) / (n1 + n2 - 2)`. -/
def pooledVar (g1 g2 : List ℚ) : ℚ :=
  (((g1.length : ℚ) - 1) * var1 g1 + ((g2.length : ℚ) - 1) * var1 g2) /
    ((g1.length : ℚ) + (g2.length : ℚ) - 2)

/-- `cohens_d` (phase3, lines 61-95): `d = (M1 - M2) / pooled_std` when
`pooled_std > 0`, else `0`, plus the interpretation band.  The phase5 variant
additionally returns `d ± 1.96 * se_d`; its `d` is computed identically. -/
noncomputable def cohens_d (g1 g2 : List ℚ) : ℝ × String :=
  let pooled_std : ℝ := Real.sqrt (pooledVar g1 g2)
  let d : ℝ := if 0 < pooled_std then ((mean g1 - mean g2 : ℚ) : ℝ) / pooled_std else 0
  let interpretation :=
    if |d| < 1/5 then "negligible"
    else if |d| < 1/2 then "small"
    else if |d| < 4/5 then "medium"
    else "large"
  (d, interpretation)

/-! ### Phase 2: chi-square and Cramér's V (src/analysis/phase2_chi_square_analysis.py, cramers_v) -/

/-- Row margin of a contingency table. -/
def rowSum {r c : ℕ} (t : Fin r → Fin c → ℚ) (i : Fin r) : ℚ := ∑ j, t i j

/-- Column margin of a contingency table. -/
def colSum {r c : ℕ} (t : Fin r → Fin c → ℚ) (j : Fin c) : ℚ := ∑ i, t i j

/-- `contingency_table.sum()`. -/
def total {r c : ℕ} (t : Fin r → Fin c → ℚ) : ℚ := ∑ i, ∑ j, t i j

/-- scipy's table of expected frequencies `R_i * C_j / n`.  (Division by zero
yields `0` in `ℚ`; scipy produces NaN there, a case the callers below treat
explicitly through the `total t = 0` branch.) -/
def expectedFreq {r c : ℕ} (t : Fin r → Fin c → ℚ) (i : Fin r) (j : Fin c) : ℚ :=
  rowSum t i * colSum t j / total t

/-- scipy's degrees of freedom `expected.size - sum(expected.shape) + expected.ndim - 1`,
over `ℤ` (Python ints do not truncate): equals `(r-1)*(c-1)`. -/
def tableDof (r c : ℕ) : ℤ := (r : ℤ) * c - ((r : ℤ) + c) + 2 - 1

/-- `np.sign`, over `ℚ`. -/
def ratSign (x : ℚ) : ℚ := if 0 < x then 1 else if x < 0 then -1 else 0

/-- Yates continuity adjustment applied by `chi2_contingency` when `dof == 1`:
`observed + minimum(0.5, |expected - observed|) * sign(expected - observed)`. -/
def yatesAdjust {r c : ℕ} (t : Fin r → Fin c → ℚ) (i : Fin r) (j : Fin c) : ℚ :=
  t i j + min (1/2) |expectedFreq t i j - t i j| * ratSign (expectedFreq t i j - t i j)

/-- The Pearson statistic `((observed - expected)**2 / expected).sum()` for a
given (possibly Yates-adjusted) observed table. -/
def pearsonStat {r c : ℕ} (t obs : Fin r → Fin c → ℚ) : ℚ :=
  ∑ i, ∑ j, (obs i j - expectedFreq t i j) ^ 2 / expectedFreq t i j

/-- `scipy.stats.chi2_contingency(t)[0]` with the default continuity
correction, as called by `cramers_v` (phase2, line 66).  Modelled faithfully
to scipy's control flow:
* it raises `ValueError` when the expected-frequency table has a zero
  element — NaN entries (which arise exactly when `n = 0`, from `0/0`)
  compare unequal to zero, so an all-zero table does **not** raise;
* `dof == 0` short-circuits to a zero statistic;
* when `n = 0` (and `dof ≠ 0`) the statistic is NaN, modelled as `none`;
* otherwise the Pearson statistic, Yates-adjusted when `dof == 1`. -/
def chi2_contingency {r c : ℕ} (t : Fin r → Fin c → ℚ) : Except String (Option ℚ) :=
  if 0 < total t ∧ ∃ i j, expectedFreq t i j = 0 then
    .error "The internally computed table of expected frequencies has a zero element."
  else if tableDof r c = 0 then .ok (some 0)
  else if total t = 0 then .ok none
  else if tableDof r c = 1 then .ok (some (pearsonStat t (yatesAdjust t)))
  else .ok (some (pearsonStat t t))

/-- `cramers_v` (phase2, lines 54-73): computes the chi-square statistic
**first** (so a scipy `ValueError` propagates), then guards
`min_dim == 0 or n == 0` with `0.0`, else `sqrt(chi2 / (n * min_dim))`.
The `.getD 0` placeholder is only reached when the statistic is NaN
(`n = 0`), which the guard has already returned on. -/
noncomputable def cramers_v {r c : ℕ} (t : Fin r → Fin c → ℚ) : Except String ℝ :=
  match chi2_contingency t with
  | .error e => .error e
  | .ok chi2 =>
    if min (r - 1) (c - 1) = 0 ∨ total t = 0 then .ok 0
    else .ok (Real.sqrt ((chi2.getD 0 : ℝ) / (total t * (min (r - 1) (c - 1) : ℕ))))

/-! ### Phase 3: Phi coefficient (src/analysis/phase3_logistic_regression.py, phi_coefficient) -/

/-- `phi_coefficient` (phase3, lines 98-135): `(ad - bc) / sqrt((a+b)(c+d)(a+c)(b+d))`
when the denominator is positive, else `0`, plus the interpretation band. -/
noncomputable def phi_coefficient (t : Fin 2 → Fin 2 → ℚ) : ℝ × String :=
  let a := t 0 0
  let b := t 0 1
  let c := t 1 0
  let d := t 1 1
  let numerator : ℝ := ((a * d - b * c : ℚ) : ℝ)
  let denominator : ℝ := Real.sqrt (((a + b) * (c + d) * (a + c) * (b + d) : ℚ) : ℝ)
  let phi : ℝ := if 0 < denominator then numerator / denominator else 0
  let interpretation :=
    if |phi| < 1/10 then "negligible"
    else if |phi| < 3/10 then "small"
    else if |phi| < 1/2 then "medium"
    else "large"
  (phi, interpretation)

/-! ### Phase 1: Wilson confidence interval (src/analysis/phase1_descriptive_statistics.py, wilson_ci) -/

/-- `wilson_ci` (phase1, lines 386-417).  The normal quantile
`z = stats.norm.ppf(1 - alpha/2)` is external scipy code; it is modelled as
the parameter `z` (for the default `alpha = 0.05`, `z ≈ 1.96 > 0`).  For
`n = 0` the documented sentinel `(0.0, 0.0)` is returned; otherwise the
Wilson centre/margin formula, clamped to `[0, 1]` by the final
`max 0` / `min 1`. -/
noncomputable def wilson_ci (successes n : ℕ) (z : ℝ) : ℝ × ℝ :=
  if n = 0 then (0, 0)
  else
    let p : ℝ := (successes : ℝ) / n
    let denominator : ℝ := 1 + z ^ 2 / n
    let centre : ℝ := p + z ^ 2 / (2 * n)
    let margin : ℝ := z * Real.sqrt ((p * (1 - p) + z ^ 2 / (4 * n)) / n)
    (max 0 ((centre - margin) / denominator), min 1 ((centre + margin) / denominator))

/-! ### Helper lemmas -/

/-- Splitting a list's length into the rows matching a predicate and the rows
surviving the corresponding filter. -/
lemma length_countP_filter {α : Type} (l : List α) (p : α → Bool) :
    l.length = l.countP p + (l.filter (fun a => !p a)).length := by
  induction l with
  | nil => rfl
  | cons a rest ih =>
    by_cases h : p a = true
    · simp [List.countP_cons, List.filter_cons, h, ih]; omega
    · simp only [Bool.not_eq_true] at h
      simp [List.countP_cons, List.filter_cons, h, ih]; omega

/-- `containsSub` decides the substring (infix) relation. -/
lemma containsSub_iff (needle haystack : List Char) :
    containsSub needle haystack = true ↔ needle <:+: haystack := by
  induction haystack with
  | nil => simp [containsSub, List.isEmpty_iff, List.infix_nil]
  | cons c rest ih =>
    simp [containsSub, ih, List.infix_cons_iff, List.isPrefixOf_iff_prefix]

/-- Membership in the theme-coding loop: a theme is emitted iff some entry of
the codebook carries it with a keyword matching the lowered text. -/
lemma mem_themesFound (textLower : String) (cb : List (String × List String))
    (theme : String) :
    theme ∈ themesFound textLower cb ↔
      ∃ kws, (theme, kws) ∈ cb ∧
        ∃ kw ∈ kws, containsSub kw.data textLower.data = true := by
  induction cb with
  | nil => simp [themesFound]
  | cons entry rest ih =>
    obtain ⟨th, kws⟩ := entry
    by_cases h : kws.any (fun kw => containsSub kw.data textLower.data) = true
    · rw [List.any_eq_true] at h
      simp only [themesFound, if_pos (List.any_eq_true.mpr h), List.mem_cons, ih,
        Prod.mk.injEq]
      constructor
      · rintro (rfl | ⟨kws2, hmem, hkw⟩)
        · exact ⟨kws, Or.inl ⟨rfl, rfl⟩, h⟩
        · exact ⟨kws2, Or.inr hmem, hkw⟩
      · rintro ⟨kws2, (⟨rfl, rfl⟩ | hmem), hkw⟩
        · exact Or.inl rfl
        · exact Or.inr ⟨kws2, hmem, hkw⟩
    · simp only [themesFound, if_neg h, ih, List.mem_cons, Prod.mk.injEq]
      rw [List.any_eq_true] at h
      push_neg at h
      constructor
      · rintro ⟨kws2, hmem, hkw⟩
        exact ⟨kws2, Or.inr hmem, hkw⟩
      · rintro ⟨kws2, (⟨rfl, rfl⟩ | hmem), hkw⟩
        · obtain ⟨kw, hkwmem, hc⟩ := hkw
          exact absurd hc (by simpa using h kw hkwmem)
        · exact ⟨kws2, hmem, hkw⟩

/-- The theme-coding loop emits a sublist (hence an in-order selection) of the
codebook's theme names. -/
lemma themesFound_sublist (textLower : String) (cb : List (String × List String)) :
    List.Sublist (themesFound textLower cb) (cb.map Prod.fst) := by
  induction cb with
  | nil => simp [themesFound]
  | cons entry rest ih =>
    obtain ⟨th, kws⟩ := entry
    by_cases h : kws.any (fun kw => containsSub kw.data textLower.data) = true
    · simpa [themesFound, h] using ih.cons₂ th
    · simpa [themesFound, h] using ih.cons th

/-! ### Claims -/

/-- C2: `compute_sample_flow` applies the three exclusions in order, each on
the remainder of the previous step; the counts satisfy
`initial_n - excluded_attention - excluded_missing_condition -
excluded_missing_donation = final_n`; the three exclusion criteria are
pairwise disjoint as predicates on the input rows; and every row of the
filtered frame has a non-missing condition, a non-missing donation decision
and an attention flag that is **not** `0` (amended: the source only filters
`attention_check_correct == 0`, so the flag equals `1` only under the
additional hypothesis that the input flag column is `0`/`1`-valued, as data
preparation produces it). -/
theorem compute_sample_flow_spec (df : List Row) :
    (compute_sample_flow df).initial_n
        - (compute_sample_flow df).excluded_attention
        - (compute_sample_flow df).excluded_missing_condition
        - (compute_sample_flow df).excluded_missing_donation
      = (compute_sample_flow df).final_n
    ∧ (compute_sample_flow df).excluded_attention = df.countP failedAttention
    ∧ (compute_sample_flow df).excluded_missing_condition
        = df.countP (fun r => !failedAttention r && missingCondition r)
    ∧ (compute_sample_flow df).excluded_missing_donation
        = df.countP (fun r => !failedAttention r && (!missingCondition r && missingDonation r))
    ∧ (∀ r : Row,
        ¬(failedAttention r = true
            ∧ (!failedAttention r && missingCondition r) = true)
        ∧ ¬(failedAttention r = true
            ∧ (!failedAttention r && (!missingCondition r && missingDonation r)) = true)
        ∧ ¬((!failedAttention r && missingCondition r) = true
            ∧ (!failedAttention r && (!missingCondition r && missingDonation r)) = true))
    ∧ (∀ r ∈ (compute_sample_flow df).df_filtered,
        r.condition ≠ none ∧ r.donation_decision ≠ none
          ∧ r.attention_check_correct ≠ some 0)
    ∧ ((∀ r ∈ df, r.attention_check_correct = some 0 ∨ r.attention_check_correct = some 1) →
        ∀ r ∈ (compute_sample_flow df).df_filtered, r.attention_check_correct = some 1) := by
  have h1 := length_countP_filter df failedAttention
  have h2 := length_countP_filter (df.filter (fun r => !failedAttention r)) missingCondition
  have h3 := length_countP_filter
    ((df.filter (fun r => !failedAttention r)).filter (fun r => !missingCondition r))
    missingDonation
  have hmem : ∀ r ∈ (compute_sample_flow df).df_filtered,
      failedAttention r = false ∧ missingCondition r = false ∧ missingDonation r = false := by
    intro r hr
    simp only [compute_sample_flow, List.mem_filter, Bool.not_eq_true'] at hr
    exact ⟨hr.1.1.2, hr.1.2, hr.2⟩
  refine ⟨?_, rfl, ?_, ?_, ?_, ?_, ?_⟩
  · simp only [compute_sample_flow]
    omega
  · simp only [compute_sample_flow, List.countP_filter]
    congr 1
    funext r
    cases failedAttention r <;> cases missingCondition r <;> rfl
  · simp only [compute_sample_flow, List.countP_filter]
    congr 1
    funext r
    cases failedAttention r <;> cases missingCondition r <;> cases missingDonation r <;> rfl
  · intro r
    refine ⟨?_, ?_, ?_⟩ <;> rintro ⟨ha, hb⟩ <;>
      simp only [Bool.and_eq_true, Bool.not_eq_true'] at ha hb <;> simp_all
  · intro r hr
    obtain ⟨hfa, hmc, hmd⟩ := hmem r hr
    simp only [missingCondition] at hmc
    simp only [missingDonation] at hmd
    simp only [failedAttention] at hfa
    exact ⟨beq_eq_false_iff_ne.mp hmc, beq_eq_false_iff_ne.mp hmd,
      beq_eq_false_iff_ne.mp hfa⟩
  · intro hbin r hr
    have hin : r ∈ df := by
      have := hr
      simp only [compute_sample_flow, List.mem_filter] at this
      exact this.1.1.1
    obtain ⟨hfa, _, _⟩ := hmem r hr
    simp only [failedAttention] at hfa
    rcases hbin r hin with h0 | h1
    · rw [h0] at hfa
      simp at hfa
    · exact h1

/-- C2 witness: a four-row frame with a 0/1-valued attention flag, exercising
all three exclusion steps and the binary-flag hypothesis of the final
conjunct. -/
theorem compute_sample_flow_spec_witness :
    (∀ r ∈ [(⟨some 1, some "A", some 1⟩ : Row), ⟨some 0, some "B", some 0⟩,
        ⟨some 1, none, some 1⟩, ⟨some 1, some "C", none⟩],
      r.attention_check_correct = some 0 ∨ r.attention_check_correct = some 1)
      ∧ ∀ r ∈ (compute_sample_flow [(⟨some 1, some "A", some 1⟩ : Row),
            ⟨some 0, some "B", some 0⟩, ⟨some 1, none, some 1⟩,
            ⟨some 1, some "C", none⟩]).df_filtered,
          r.attention_check_correct = some 1 :=
  ⟨by decide,
   (compute_sample_flow_spec [(⟨some 1, some "A", some 1⟩ : Row),
       ⟨some 0, some "B", some 0⟩, ⟨some 1, none, some 1⟩,
       ⟨some 1, some "C", none⟩]).2.2.2.2.2.2 (by decide)⟩

/-- C2 counterexample: on a frame whose single row has a missing (NaN)
attention flag, the row survives all three exclusion steps, so the final
frame contains a row with `attention_check_correct ≠ 1` — refuting the
claim's "attention_check_correct = 1 for every row of the filtered frame"
for arbitrary input frames. -/
theorem compute_sample_flow_counterexample :
    (compute_sample_flow [⟨none, some "A", some 1⟩]).df_filtered
        = [⟨none, some "A", some 1⟩]
      ∧ (⟨none, some "A", some 1⟩ : Row).attention_check_correct ≠ some 1 := by
  decide

/-- C4: `interpret_interaction` computes the interaction magnitude as
`(D - C) - (B - A)`; but because the source compares that fraction-scale
magnitude against the literal `5` (i.e. 500 percentage points) instead of
`0.05`, every quadruple of probabilities in `[0, 1]` is classified
"additive" — the "synergistic"/"antagonistic" branches are unreachable,
contradicting the claimed ±5-percentage-point classification. -/
theorem interpret_interaction_additive (p_a p_b p_c p_d : ℚ)
    (ha0 : 0 ≤ p_a) (ha1 : p_a ≤ 1) (hb0 : 0 ≤ p_b) (hb1 : p_b ≤ 1)
    (hc0 : 0 ≤ p_c) (hc1 : p_c ≤ 1) (hd0 : 0 ≤ p_d) (hd1 : p_d ≤ 1) :
    (interpret_interaction p_a p_b p_c p_d).2 = (p_d - p_c) - (p_b - p_a)
      ∧ (interpret_interaction p_a p_b p_c p_d).1 = "additive" := by
  have hgt : ¬((p_d - p_c) - (p_b - p_a) > 5) := by linarith
  have hlt : ¬((p_d - p_c) - (p_b - p_a) < -5) := by linarith
  exact ⟨rfl, by simp only [interpret_interaction, if_neg hgt, if_neg hlt]⟩

/-- C4 witness: the failing input `(A, B, C, D) = (0, 0, 0, 1)`, whose
interaction magnitude is `1` (100 percentage points, far above the claimed
+5pp synergy threshold) yet is classified "additive". -/
theorem interpret_interaction_additive_witness :
    ((0 : ℚ) ≤ 0 ∧ (0 : ℚ) ≤ 1 ∧ (0 : ℚ) ≤ 1 ∧ (1 : ℚ) ≤ 1)
      ∧ ((interpret_interaction 0 0 0 1).2 = ((1 : ℚ) - 0) - (0 - 0)
          ∧ (interpret_interaction 0 0 0 1).1 = "additive") :=
  ⟨by norm_num,
   interpret_interaction_additive 0 0 0 1
     (by norm_num) (by norm_num) (by norm_num) (by norm_num)
     (by norm_num) (by norm_num) (by norm_num) (by norm_num)⟩

/-- C5 (amended): for non-blank text, `code_themes` returns exactly the
themes one of whose keywords occurs as a substring of the lowercased text;
empty (or all-whitespace) and null text yield no themes; and for the text
"I am worried about privacy and control" the result is exactly
`["control", "general_privacy"]` — it includes "control" and
"general_privacy" but **not** "risk", since no risk keyword (risk, danger,
unsafe, concern, worry, afraid, misuse) is a substring of the text
("worried" does not contain "worry"). -/
theorem code_themes_spec :
    (∀ (codebook : List (String × List String)) (t theme : String),
        pyStrip t ≠ "" →
        (theme ∈ code_themes (some t) codebook ↔
          ∃ kws, (theme, kws) ∈ codebook ∧ ∃ kw ∈ kws, kw.data <:+: (strLower t).data))
    ∧ code_themes (some "I am worried about privacy and control") THEME_CODEBOOK
        = ["control", "general_privacy"]
    ∧ (∀ codebook : List (String × List String),
        code_themes (some "") codebook = [] ∧ code_themes none codebook = []) := by
  refine ⟨?_, by decide, ?_⟩
  · intro codebook t theme ht
    rw [code_themes, if_neg ht, mem_themesFound]
    simp only [containsSub_iff]
  · intro codebook
    exact ⟨by rw [code_themes, if_pos (by decide)], rfl⟩

/-- C5 witness: instantiating the membership characterization at a concrete
non-blank text and theme. -/
theorem code_themes_spec_witness :
    pyStrip "I am worried about privacy and control" ≠ ""
      ∧ ("risk" ∈ code_themes (some "I am worried about privacy and control") THEME_CODEBOOK ↔
          ∃ kws, ("risk", kws) ∈ THEME_CODEBOOK ∧
            ∃ kw ∈ kws,
              kw.data <:+: (strLower "I am worried about privacy and control").data) :=
  ⟨by decide,
   code_themes_spec.1 THEME_CODEBOOK "I am worried about privacy and control" "risk"
     (by decide)⟩

/-- C5 counterexample: the claim requires "risk" to be among the themes coded
for "I am worried about privacy and control", but the source's substring
matching finds no risk keyword there, so "risk" is not returned. -/
theorem code_themes_risk_counterexample :
    "risk" ∉ code_themes (some "I am worried about privacy and control") THEME_CODEBOOK := by
  decide

/-- C10: on any text (including null), the theme list produced with the fixed
`THEME_CODEBOOK` is an in-order sublist of the codebook's theme names (the
inner keyword loop breaks on the first match, appending each theme at most
once), hence duplicate-free, and every theme is counted at most once. -/
theorem code_themes_nodup (text : Option String) :
    List.Sublist (code_themes text THEME_CODEBOOK) (THEME_CODEBOOK.map Prod.fst)
      ∧ (code_themes text THEME_CODEBOOK).Nodup
      ∧ ∀ theme, (code_themes text THEME_CODEBOOK).count theme ≤ 1 := by
  have hkeys : (THEME_CODEBOOK.map Prod.fst).Nodup := by decide
  have hsub : List.Sublist (code_themes text THEME_CODEBOOK) (THEME_CODEBOOK.map Prod.fst) := by
    match text with
    | none => exact List.nil_sublist _
    | some t =>
      rw [code_themes]
      by_cases h : pyStrip t = ""
      · rw [if_pos h]; exact List.nil_sublist _
      · rw [if_neg h]; exact themesFound_sublist _ _
  have hnodup := hkeys.sublist hsub
  exact ⟨hsub, hnodup, List.nodup_iff_count_le_one.mp hnodup⟩

/-- C9: `check_normality` on fewer than 3 observations returns
`(False, NaN, NaN)` without consulting the Shapiro-Wilk oracle, and whenever
either comparison group has fewer than 3 observations the selection branch of
`check_mc_transparency` takes the non-parametric path (Mann-Whitney U). -/
theorem check_normality_small_sample (shapiro : List ℚ → ℚ × ℚ)
    (draw : List ℚ → ℕ → List ℚ) (data g0 g1 : List ℚ) (alpha : ℚ)
    (h : data.length < 3) (h01 : g0.length < 3 ∨ g1.length < 3) :
    check_normality shapiro draw data alpha = (false, none, none)
      ∧ mc_test_type shapiro draw g0 g1 = "Mann-Whitney U" := by
  constructor
  · rw [check_normality, if_pos h]
  · rcases h01 with h0 | h1
    · have hg0 : check_normality shapiro draw g0 (1/20) = (false, none, none) := by
        rw [check_normality, if_pos h0]
      rw [mc_test_type, hg0]
      simp
    · have hg1 : check_normality shapiro draw g1 (1/20) = (false, none, none) := by
        rw [check_normality, if_pos h1]
      rw [mc_test_type, hg1]
      simp
/-- C9 witness: a two-element group and an empty group, with a trivial
Shapiro oracle and an identity draw oracle. -/
theorem check_normality_small_sample_witness :
    ([(1 : ℚ), 2].length < 3 ∧ (([] : List ℚ).length < 3 ∨ [(1 : ℚ)].length < 3))
      ∧ (check_normality (fun _ => (1, 1)) (fun l _ => l) [(1 : ℚ), 2] (1/20)
            = (false, none, none)
          ∧ mc_test_type (fun _ => (1, 1)) (fun l _ => l) ([] : List ℚ) [(1 : ℚ)]
            = "Mann-Whitney U") :=
  ⟨⟨by decide, Or.inl (by decide)⟩,
   check_normality_small_sample (fun _ => (1, 1)) (fun l _ => l) [(1 : ℚ), 2] [] [(1 : ℚ)]
     (1/20) (by decide) (Or.inl (by decide))⟩

/-- C6: with more than 5000 observations, `check_normality`'s result is a
function of the subsample produced by the **unseeded** global-RNG draw
(`np.random.choice(data, 5000, replace=False)`; no `np.random.seed` call
exists anywhere in phase 5, unlike the seeded bootstrap of phase 2) — the
draw enters the embedding as the explicit oracle `draw` precisely because
the source leaves it to the ambient RNG state, so two runs coincide only if
the ambient draws happen to coincide, not by a fixed seed as claimed. -/
theorem check_normality_unseeded_draw (shapiro : List ℚ → ℚ × ℚ)
    (draw : List ℚ → ℕ → List ℚ) (data : List ℚ) (alpha : ℚ)
    (h : 5000 < data.length) :
    check_normality shapiro draw data alpha =
      (decide (alpha < (shapiro (draw data 5000)).2),
       some (shapiro (draw data 5000)).1, some (shapiro (draw data 5000)).2) := by
  have h3 : ¬data.length < 3 := by omega
  have h5 : ¬data.length ≤ 5000 := by omega
  rw [check_normality, if_neg h3, if_neg h5]

/-- C6 witness: a concrete 5001-observation sample reaching the
RNG-dependent branch. -/
theorem check_normality_unseeded_draw_witness :
    5000 < (List.replicate 5001 (0 : ℚ)).length
      ∧ check_normality (fun _ => (1, 1)) (fun l _ => l.take 5000)
          (List.replicate 5001 (0 : ℚ)) 0
        = (decide ((0 : ℚ) < 1), some (1 : ℚ), some (1 : ℚ)) :=
  ⟨by rw [List.length_replicate]; decide,
   check_normality_unseeded_draw (fun _ => (1, 1)) (fun l _ => l.take 5000)
     (List.replicate 5001 (0 : ℚ)) 0 (by rw [List.length_replicate]; decide)⟩

/-- C8: for group sizes `n1, n2 ≥ 1` and any `0 ≤ U ≤ n1*n2`,
`rank_biserial_r` computes `r = 2U/(n1*n2) - 1`, which lies in `[-1, 1]`,
vanishes exactly at `U = n1*n2/2`, and is positive exactly when
`U > n1*n2/2` (the first-named group stochastically larger). -/
theorem rank_biserial_r_spec (U : ℚ) (n1 n2 : ℕ) (h1 : 1 ≤ n1) (h2 : 1 ≤ n2)
    (hU0 : 0 ≤ U) (hUn : U ≤ (n1 : ℚ) * n2) :
    (rank_biserial_r U n1 n2).1 = (2 * U) / ((n1 : ℚ) * n2) - 1
      ∧ -1 ≤ (rank_biserial_r U n1 n2).1
      ∧ (rank_biserial_r U n1 n2).1 ≤ 1
      ∧ ((rank_biserial_r U n1 n2).1 = 0 ↔ U = (n1 : ℚ) * n2 / 2)
      ∧ (0 < (rank_biserial_r U n1 n2).1 ↔ (n1 : ℚ) * n2 / 2 < U) := by
  have hn1 : (1 : ℚ) ≤ (n1 : ℚ) := by exact_mod_cast h1
  have hn2 : (1 : ℚ) ≤ (n2 : ℚ) := by exact_mod_cast h2
  have hn : (0 : ℚ) < (n1 : ℚ) * n2 := by nlinarith
  have hr : (rank_biserial_r U n1 n2).1 = (2 * U) / ((n1 : ℚ) * n2) - 1 := rfl
  refine ⟨hr, ?_, ?_, ?_, ?_⟩
  · rw [hr]
    have : (0 : ℚ) ≤ (2 * U) / ((n1 : ℚ) * n2) := div_nonneg (by linarith) hn.le
    linarith
  · rw [hr]
    have : (2 * U) / ((n1 : ℚ) * n2) ≤ 2 := by
      rw [div_le_iff₀ hn]; linarith
    linarith
  · rw [hr, sub_eq_zero, div_eq_iff hn.ne']
    constructor
    · intro hh
      rw [eq_div_iff (two_ne_zero)]
      linarith
    · intro hh
      rw [eq_div_iff (two_ne_zero)] at hh
      linarith
  · rw [hr, sub_pos, lt_div_iff₀ hn]
    constructor
    · intro hh
      rw [div_lt_iff₀ (by norm_num : (0 : ℚ) < 2)]
      linarith
    · intro hh
      rw [div_lt_iff₀ (by norm_num : (0 : ℚ) < 2)] at hh
      linarith

/-- C8 witness: `U = 5`, `n1 = 2`, `n2 = 3` (so `n1*n2 = 6`, `U > 3`). -/
theorem rank_biserial_r_spec_witness :
    ((1 ≤ 2 ∧ 1 ≤ 3) ∧ (0 : ℚ) ≤ 5 ∧ (5 : ℚ) ≤ (2 : ℕ) * (3 : ℕ))
      ∧ ((rank_biserial_r 5 2 3).1 = (2 * 5) / (((2 : ℕ) : ℚ) * (3 : ℕ)) - 1
          ∧ -1 ≤ (rank_biserial_r 5 2 3).1
          ∧ (rank_biserial_r 5 2 3).1 ≤ 1
          ∧ ((rank_biserial_r 5 2 3).1 = 0 ↔ (5 : ℚ) = ((2 : ℕ) : ℚ) * (3 : ℕ) / 2)
          ∧ (0 < (rank_biserial_r 5 2 3).1 ↔ ((2 : ℕ) : ℚ) * (3 : ℕ) / 2 < 5)) :=
  ⟨⟨⟨by decide, by decide⟩, by norm_num, by norm_num⟩,
   rank_biserial_r_spec 5 2 3 (by decide) (by decide) (by norm_num) (by norm_num)⟩

/-- The pooled-variance radicand is symmetric in the two groups. -/
lemma pooledVar_comm (g1 g2 : List ℚ) : pooledVar g1 g2 = pooledVar g2 g1 := by
  unfold pooledVar
  ring_nf

/-- C7: Cohen's d is antisymmetric on non-degenerate samples (each of size at
least 2, positive pooled variance): `cohens_d g1 g2 = -cohens_d g2 g1`; and
whenever the pooled standard deviation is `0`, `cohens_d` returns `0`. -/
theorem cohens_d_antisymm (g1 g2 : List ℚ) (h1 : 2 ≤ g1.length)
    (h2 : 2 ≤ g2.length) (hv : 0 < pooledVar g1 g2) :
    (cohens_d g1 g2).1 = -((cohens_d g2 g1).1)
      ∧ ∀ f1 f2 : List ℚ,
          Real.sqrt ((pooledVar f1 f2 : ℚ) : ℝ) = 0 → (cohens_d f1 f2).1 = 0 := by
  constructor
  · have hs : (0 : ℝ) < Real.sqrt ((pooledVar g1 g2 : ℚ) : ℝ) :=
      Real.sqrt_pos.mpr (by exact_mod_cast hv)
    have hs' : (0 : ℝ) < Real.sqrt ((pooledVar g2 g1 : ℚ) : ℝ) := by
      rw [pooledVar_comm g2 g1]; exact hs
    have e12 : (cohens_d g1 g2).1
        = ((mean g1 - mean g2 : ℚ) : ℝ) / Real.sqrt ((pooledVar g1 g2 : ℚ) : ℝ) := by
      simp only [cohens_d]
      rw [if_pos hs]
    have e21 : (cohens_d g2 g1).1
        = ((mean g2 - mean g1 : ℚ) : ℝ) / Real.sqrt ((pooledVar g1 g2 : ℚ) : ℝ) := by
      simp only [cohens_d]
      rw [if_pos hs', pooledVar_comm g2 g1]
    rw [e12, e21]
    push_cast
    ring
  · intro f1 f2 h0
    simp only [cohens_d]
    rw [if_neg (by rw [h0]; exact lt_irrefl 0)]

/-- C7 witness: `g1 = [0, 1]`, `g2 = [0, 2]`, whose pooled variance is
`5/4 > 0`. -/
theorem cohens_d_antisymm_witness :
    (2 ≤ [(0 : ℚ), 1].length ∧ 2 ≤ [(0 : ℚ), 2].length
        ∧ 0 < pooledVar [(0 : ℚ), 1] [(0 : ℚ), 2])
      ∧ ((cohens_d [(0 : ℚ), 1] [(0 : ℚ), 2]).1 = -((cohens_d [(0 : ℚ), 2] [(0 : ℚ), 1]).1)
          ∧ ∀ f1 f2 : List ℚ,
              Real.sqrt ((pooledVar f1 f2 : ℚ) : ℝ) = 0 → (cohens_d f1 f2).1 = 0) :=
  ⟨⟨by decide, by decide, by norm_num [pooledVar, var1, mean]⟩,
   cohens_d_antisymm [(0 : ℚ), 1] [(0 : ℚ), 2] (by decide) (by decide)
     (by norm_num [pooledVar, var1, mean])⟩

/-- If a nonnegative real dominates the square of another, it dominates it. -/
lemma le_of_sq_le_sq {a s : ℝ} (hs : 0 ≤ s) (h : a ^ 2 ≤ s ^ 2) : a ≤ s := by
  nlinarith [sq_nonneg (s - a), sq_nonneg (s + a)]

/-- C1: for `n ≥ 1`, `0 ≤ k ≤ n` and any nonnegative normal quantile `z`
(the external `stats.norm.ppf(1 - alpha/2)`, ≈ 1.96 for the default
`alpha = 0.05`), `wilson_ci` returns an interval with
`0 ≤ lower ≤ k/n ≤ upper ≤ 1`; and for `n = 0` it returns exactly `(0, 0)`
for every number of successes. -/
theorem wilson_ci_bounds (successes n : ℕ) (z : ℝ) (hn : 1 ≤ n)
    (hk : successes ≤ n) (hz : 0 ≤ z) :
    (0 ≤ (wilson_ci successes n z).1
        ∧ (wilson_ci successes n z).1 ≤ (successes : ℝ) / n
        ∧ (successes : ℝ) / n ≤ (wilson_ci successes n z).2
        ∧ (wilson_ci successes n z).2 ≤ 1)
      ∧ ∀ (k : ℕ) (w : ℝ), wilson_ci k 0 w = (0, 0) := by
  have hne : n ≠ 0 := by omega
  have hN : (1 : ℝ) ≤ (n : ℝ) := by exact_mod_cast hn
  have hN0 : (0 : ℝ) < (n : ℝ) := by linarith
  set p : ℝ := (successes : ℝ) / n with hp
  have hp0 : 0 ≤ p := by positivity
  have hp1 : p ≤ 1 := by
    rw [hp, div_le_one hN0]
    exact_mod_cast hk
  have hpp : 0 ≤ p * (1 - p) := mul_nonneg hp0 (by linarith)
  set R : ℝ := (p * (1 - p) + z ^ 2 / (4 * n)) / n with hRdef
  have hR0 : 0 ≤ R := by
    rw [hRdef]
    have h4 : 0 ≤ z ^ 2 / (4 * (n : ℝ)) := by positivity
    exact div_nonneg (by linarith) hN0.le
  set s : ℝ := Real.sqrt R with hsdef
  have hs0 : 0 ≤ s := Real.sqrt_nonneg R
  have hs2 : s ^ 2 = R := Real.sq_sqrt hR0
  have hD : (0 : ℝ) < 1 + z ^ 2 / n := by positivity
  -- the two key margin inequalities
  have key : ∀ q : ℝ, q ^ 2 = (1 / 2 - p) ^ 2 → z ^ 2 / n * q ≤ z * s := by
    intro q hq2
    have hqs : z * q / n ≤ s := by
      refine le_of_sq_le_sq hs0 ?_
      rw [hs2, hRdef]
      have expand : (z * q / n) ^ 2 = z ^ 2 * ((1 / 2 - p) ^ 2) / n ^ 2 := by
        rw [← hq2]; ring
      rw [expand, div_le_div_iff₀ (by positivity) hN0]
      have : z ^ 2 * (1 / 2 - p) ^ 2 * n
          = (p * (1 - p) + z ^ 2 / (4 * n)) * n ^ 2
            - (p * (1 - p)) * (n ^ 2 + z ^ 2 * n) := by
        field_simp
        ring
      rw [this]
      nlinarith [mul_nonneg hpp (sq_nonneg (n : ℝ)),
        mul_nonneg (mul_nonneg hpp (sq_nonneg z)) hN0.le]
    calc z ^ 2 / n * q = z * (z * q / n) := by ring
    _ ≤ z * s := mul_le_mul_of_nonneg_left hqs hz
  have key1 : z ^ 2 / n * (1 / 2 - p) ≤ z * s := key (1 / 2 - p) rfl
  have key2 : z ^ 2 / n * (p - 1 / 2) ≤ z * s := key (p - 1 / 2) (by ring)
  have hw : wilson_ci successes n z
      = (max 0 ((p + z ^ 2 / (2 * n) - z * s) / (1 + z ^ 2 / n)),
         min 1 ((p + z ^ 2 / (2 * n) + z * s) / (1 + z ^ 2 / n))) := by
    rw [wilson_ci, if_neg hne]
  refine ⟨⟨?_, ?_, ?_, ?_⟩, ?_⟩
  · rw [hw]
    exact le_max_left 0 _
  · rw [hw]
    refine max_le hp0 ?_
    rw [div_le_iff₀ hD]
    have expand : p * (1 + z ^ 2 / n) = p + z ^ 2 / n * p := by ring
    have : p + z ^ 2 / (2 * n) - z * s - p * (1 + z ^ 2 / n)
        = z ^ 2 / n * (1 / 2 - p) - z * s := by
      field_simp
      ring
    linarith [key1, this]
  · rw [hw]
    refine le_min hp1 ?_
    rw [le_div_iff₀ hD]
    have : p * (1 + z ^ 2 / n) - (p + z ^ 2 / (2 * n))
        = z ^ 2 / n * (p - 1 / 2) := by
      field_simp
      ring
    linarith [key2, this]
  · rw [hw]
    exact min_le_left 1 _
  · intro k w
    rw [wilson_ci, if_pos rfl]

/-- C1 witness: `k = 1`, `n = 2`, `z = 1`. -/
theorem wilson_ci_bounds_witness :
    (1 ≤ 2 ∧ 1 ≤ 2 ∧ (0 : ℝ) ≤ 1)
      ∧ ((0 ≤ (wilson_ci 1 2 1).1
            ∧ (wilson_ci 1 2 1).1 ≤ ((1 : ℕ) : ℝ) / ((2 : ℕ) : ℝ)
            ∧ ((1 : ℕ) : ℝ) / ((2 : ℕ) : ℝ) ≤ (wilson_ci 1 2 1).2
            ∧ (wilson_ci 1 2 1).2 ≤ 1)
          ∧ ∀ (k : ℕ) (w : ℝ), wilson_ci k 0 w = (0, 0)) :=
  ⟨⟨by decide, by decide, zero_le_one⟩,
   wilson_ci_bounds 1 2 1 (by decide) (by decide) zero_le_one⟩

/-- C3: evaluating the code at the failing input.  On the 1×2 contingency
table `[[0, 5]]` (min(r-1, c-1) = 0, n = 5), the claim requires `cramers_v`
to return exactly `0.0` without raising; but `cramers_v` calls
`scipy.stats.chi2_contingency` **before** its `min_dim == 0 or n == 0`
guard, and scipy raises `ValueError` on the zero expected frequency, so the
call raises instead of returning `0.0`. -/
theorem cramers_v_zero_margin_raises :
    cramers_v ![![(0 : ℚ), 5]]
      = Except.error "The internally computed table of expected frequencies has a zero element." := by
  have htot : total ![![(0 : ℚ), 5]] = 5 := by
    simp [total, Fin.sum_univ_succ]
  have hexp : expectedFreq ![![(0 : ℚ), 5]] 0 0 = 0 := by
    simp [expectedFreq, colSum, Fin.sum_univ_succ]
  have h : 0 < total ![![(0 : ℚ), 5]] ∧ ∃ i j, expectedFreq ![![(0 : ℚ), 5]] i j = 0 := by
    refine ⟨by rw [htot]; norm_num, 0, 0, hexp⟩
  have hchi : chi2_contingency ![![(0 : ℚ), 5]]
      = Except.error "The internally computed table of expected frequencies has a zero element." := by
    rw [chi2_contingency, if_pos h]
  unfold cramers_v
  rw [hchi]

end ChatbotStudy
